import Mathlib

/-!
# gaussian_libvips : the command-line orchestrator of `src/main.cpp`

`main` parses four options, starts the libvips runtime, loads an image, blurs it,
saves it, and lets two scope guards (`VipsExit`, `OnExit`) clean up.  The runtime and
the option parser are external; they are modelled as a record of answers
(`Runtime`) and a record of parsed options (`VariablesMap`).  A command line the parser
rejects raises an exception before `vm` is filled and is not a run of this model.  A run
of `main` is its returned `int` together with the ordered list of externally visible
calls it made.

Correspondence between the names of the specification and of the code:
`initialize` = `VIPS_INIT`, `decodeFromFile` = `vips_image_new_from_file`,
`gaussianBlur` = `vips_gaussblur`, `encodeToFile` = `vips_image_write_to_file`,
`release` = `g_object_unref`, `shutdown` = `vips_shutdown`.
-/

namespace GaussianLibvips

/-- The content of `po::variables_map vm` after `po::store` and `po::notify`:
`vm.count("help")` is non-zero exactly when `help` is `true`; an option with a value is
`some v` exactly when `vm.count` of it is non-zero, and then `vm[...].as<T>()` is `v`. -/
structure VariablesMap where
  help : Bool
  source : Option String
  destination : Option String
  blur : Option Int
  deriving DecidableEq, Repr

/-- The answers of the external world during one run.  A `VipsImage*` is a natural
number, `0` being the null pointer.  Every function below is called at most once per
run, so a function of the arguments is as general as a stateful runtime.
`vips_gaussblur` answers its return code and the pointer it leaves in `*out`.
`appDuration` is the microsecond count read off the clock at the end of `main`. -/
structure Runtime where
  VIPS_INIT : String → Int
  vips_image_new_from_file : String → Nat
  vips_gaussblur : Nat → Int → Int × Nat
  vips_image_write_to_file : Nat → String → Int
  appDuration : Int

/-- The externally visible actions of a run, in the order they happen. -/
inductive Event where
  /-- Models `cout << desc` : the option schema (usage text). -/
  | cout_desc
  /-- Models `cout << s`. -/
  | cout (s : String)
  /-- Models `printf(fmt, args...)`; pointers and line numbers are passed as integers. -/
  | printf (fmt : String) (args : List Int)
  | VIPS_INIT (argv0 : String)
  | vips_image_new_from_file (path : String)
  | vips_gaussblur (inImage : Nat) (sigma : Int)
  | vips_image_write_to_file (image : Nat) (path : String)
  | g_object_unref (image : Nat)
  | vips_shutdown
  deriving DecidableEq, Repr

/-- The outcome of a run: the value returned by `main` and the actions performed. -/
structure Run where
  status : Int
  trace : List Event
  deriving DecidableEq, Repr

/-- The conversion C++ applies to `return false;` in a function returning `int`. -/
def boolToInt (b : Bool) : Int := if b then 1 else 0

namespace VipsExit

/-- The body of `VipsExit::~VipsExit()`. -/
def dtor : List Event :=
  [Event.printf "vips_shutdown\n" [], Event.vips_shutdown]

end VipsExit

/-- The class `OnExit`: it stores the pointer it was constructed with. -/
structure OnExit where
  image : Nat
  deriving DecidableEq, Repr

namespace OnExit

/-- The body of `OnExit::OnExit(VipsImage*)` (the `printf` is on line 33). -/
def ctor (image_ : Nat) : OnExit × List Event :=
  (⟨image_⟩,
    if image_ ≠ 0 then [Event.printf "[%d] Tracking image: %p\n" [33, (image_ : Int)]] else [])

/-- The body of `OnExit::~OnExit()` (the `printf` is on line 38). -/
def dtor (self : OnExit) : List Event :=
  (if self.image ≠ 0 then
      [Event.printf "[%d] About to unref image: %p\n" [38, (self.image : Int)]]
    else []) ++
  (if self.image ≠ 0 then [Event.g_object_unref self.image] else [])

end OnExit

/-- The function `main` of `src/main.cpp`, statement by statement.  At each `return`
the destructors of the guards already constructed run in reverse order of declaration. -/
def main (rt : Runtime) (vm : VariablesMap) : Run :=
  if vm.help then
    ⟨1, [Event.cout_desc, Event.cout "\n"]⟩
  else
  match vm.source with
  | none => ⟨-1, [Event.printf "Source path parameter missing\n" []]⟩
  | some sourcePath =>
  match vm.destination with
  | none => ⟨-1, [Event.printf "Destination path parameter missing\n" []]⟩
  | some destPath =>
  match vm.blur with
  | none => ⟨-1, [Event.printf "Blur parameter missing\n" []]⟩
  | some blur =>
  let nameOfApp := "gaussian_libvips"
  let t0 := [Event.printf "Init the VIPS library\n" [], Event.VIPS_INIT nameOfApp]
  if rt.VIPS_INIT nameOfApp ≠ 0 then
    ⟨boolToInt false,
      t0 ++ [Event.printf
        "Error detected; underlying image processing library did not start up properly" []]⟩
  else
  -- VipsExit vipsCleanup;   (the constructor does nothing)
  let t1 := t0 ++ [Event.vips_image_new_from_file sourcePath]
  let sourceImage := rt.vips_image_new_from_file sourcePath
  if sourceImage = 0 then
    ⟨-1, t1 ++ [Event.printf
        "[%d] #### Error detected with vips_image_new_from_file operation" [122]]
      ++ VipsExit.dtor⟩
  else
  let a := OnExit.ctor sourceImage
  let t2 := t1 ++ a.2 ++ [Event.vips_gaussblur sourceImage blur]
  let r := rt.vips_gaussblur sourceImage blur
  -- the call writes through `&sourceImage`; the copy held by `a` is not touched
  let sourceImage := r.2
  if r.1 ≠ 0 then
    ⟨-1, t2 ++ [Event.printf "Error detected with vips_gaussblur operation\n" []]
      ++ a.1.dtor ++ VipsExit.dtor⟩
  else
  let t3 := t2 ++ [Event.vips_image_write_to_file sourceImage destPath]
  if rt.vips_image_write_to_file sourceImage destPath ≠ 0 then
    ⟨-1, t3 ++ [Event.printf
        "[%d] #### Error detected with vips_image_write_to_file operation" [139]]
      ++ a.1.dtor ++ VipsExit.dtor⟩
  else
  ⟨0, t3 ++ [Event.printf "App time: %lu\n" [rt.appDuration], Event.printf "All done\n" []]
    ++ a.1.dtor ++ VipsExit.dtor⟩

/-! ## Observations on a trace -/

/-- The four phases of the orchestration. -/
inductive Phase where
  | init
  | load
  | blur
  | save
  deriving DecidableEq, Repr

/-- The phase an event belongs to, if it is one of the four phase calls. -/
def Event.phase? : Event → Option Phase
  | Event.VIPS_INIT _ => some Phase.init
  | Event.vips_image_new_from_file _ => some Phase.load
  | Event.vips_gaussblur _ _ => some Phase.blur
  | Event.vips_image_write_to_file _ _ => some Phase.save
  | _ => none

/-- Whether an event is a call into the image runtime (phase call, unref or shutdown). -/
def Event.isRuntimeCall : Event → Bool
  | Event.cout_desc => false
  | Event.cout _ => false
  | Event.printf _ _ => false
  | _ => true

/-- The calls into the image runtime, in order. -/
def runtimeCalls (tr : List Event) : List Event := tr.filter Event.isRuntimeCall

/-- The phase calls, in order. -/
def phaseCalls (tr : List Event) : List Event := tr.filter (fun e => e.phase?.isSome)

/-- The phases called, in order. -/
def phasesOf (tr : List Event) : List Phase := tr.filterMap Event.phase?

/-- Whether the runtime reports success for a phase call (other events: `true`). -/
def Event.succeeds (rt : Runtime) : Event → Bool
  | Event.VIPS_INIT n => decide (rt.VIPS_INIT n = 0)
  | Event.vips_image_new_from_file p => decide (rt.vips_image_new_from_file p ≠ 0)
  | Event.vips_gaussblur h s => decide ((rt.vips_gaussblur h s).1 = 0)
  | Event.vips_image_write_to_file h p => decide (rt.vips_image_write_to_file h p = 0)
  | _ => true

/-- How many times the handle `h` is released in a trace. -/
def releaseCount (h : Nat) (tr : List Event) : Nat := tr.count (Event.g_object_unref h)

/-- How many times the runtime is shut down in a trace. -/
def shutdownCount (tr : List Event) : Nat := tr.count Event.vips_shutdown

/-- Whether a trace holds an initialization call that the runtime answered with success:
initialization was attempted and succeeded. -/
def initSucceeded (rt : Runtime) (tr : List Event) : Bool :=
  tr.any (fun e => e.phase? == some Phase.init && e.succeeds rt)

/-- The phase of the first call of a trace that the runtime answered with a failure. -/
def firstFailedPhase (rt : Runtime) (tr : List Event) : Option Phase :=
  (tr.find? (fun e => !e.succeeds rt)).bind Event.phase?

/-- The exits of the state machine of the specification. -/
inductive Outcome where
  | helpRequested
  | missingParam
  | initFailed
  | loadFailed
  | blurFailed
  | saveFailed
  | success
  deriving DecidableEq, Repr

/-- The exit code the state machine of the specification gives to each exit:
`HelpRequested→Exit(1)`, `MissingParam→Exit(−1)`, `InitFailed→Exit(false)`,
`LoadFailed→Exit(−1)`, `BlurFailed→Exit(−1)`, `SaveFailed→Exit(−1)`, `Success→Exit(0)`. -/
def specExit : Outcome → Int
  | Outcome.helpRequested => 1
  | Outcome.missingParam => -1
  | Outcome.initFailed => boolToInt false
  | Outcome.loadFailed => -1
  | Outcome.blurFailed => -1
  | Outcome.saveFailed => -1
  | Outcome.success => 0

/-- The exit of the state machine a run belongs to, read off the parsed options and the
first phase call of its trace that failed. -/
def outcomeOf (rt : Runtime) (vm : VariablesMap) (tr : List Event) : Outcome :=
  if vm.help then Outcome.helpRequested
  else if vm.source.isNone || vm.destination.isNone || vm.blur.isNone then Outcome.missingParam
  else
    match firstFailedPhase rt tr with
    | some Phase.init => Outcome.initFailed
    | some Phase.load => Outcome.loadFailed
    | some Phase.blur => Outcome.blurFailed
    | some Phase.save => Outcome.saveFailed
    | none => Outcome.success

/-- The exit of the state machine of the specification, fixed by the parsed options and
the answers of the runtime alone, following the specification:
`ParseArgs → HelpRequested | MissingParam | RuntimeInit → InitFailed | Load → LoadFailed |
Blur → BlurFailed | Save → SaveFailed | Success`.  Load is asked for the source path, blur
for the handle answered by load with sigma the `blur` option, save for the handle answered
by blur and the destination path. -/
def firstFailure (rt : Runtime) (vm : VariablesMap) : Outcome :=
  if vm.help then Outcome.helpRequested
  else
    match vm.source, vm.destination, vm.blur with
    | some sourcePath, some destPath, some blur =>
      if rt.VIPS_INIT "gaussian_libvips" ≠ 0 then Outcome.initFailed
      else if rt.vips_image_new_from_file sourcePath = 0 then Outcome.loadFailed
      else if (rt.vips_gaussblur (rt.vips_image_new_from_file sourcePath) blur).1 ≠ 0 then
        Outcome.blurFailed
      else if rt.vips_image_write_to_file
          (rt.vips_gaussblur (rt.vips_image_new_from_file sourcePath) blur).2 destPath ≠ 0 then
        Outcome.saveFailed
      else Outcome.success
    | _, _, _ => Outcome.missingParam

/-- Checks that no `g_object_unref` stands at or after a `vips_shutdown` in a trace. -/
def unrefsPrecedeShutdown : List Event → Bool
  | [] => true
  | Event.vips_shutdown :: es =>
      es.all (fun e => match e with
        | Event.g_object_unref _ => false
        | _ => true) && unrefsPrecedeShutdown es
  | _ :: es => unrefsPrecedeShutdown es

/-! ## Sample runs -/

/-- A runtime in which every phase succeeds: load answers handle `1`, blur handle `2`. -/
def rtOk : Runtime :=
  ⟨fun _ => 0, fun _ => 1, fun _ _ => (0, 2), fun _ _ => 0, 1234⟩

/-- A runtime whose initialization fails. -/
def rtInitFail : Runtime :=
  ⟨fun _ => -1, fun _ => 1, fun _ _ => (0, 2), fun _ _ => 0, 1234⟩

/-- A runtime whose save fails after a successful load (handle `1`) and blur (handle `2`). -/
def rtSaveFail : Runtime :=
  ⟨fun _ => 0, fun _ => 1, fun _ _ => (0, 2), fun _ _ => -1, 1234⟩

/-- The options of `-s in.png -d out.png -b 5`. -/
def vmOk : VariablesMap := ⟨false, some "in.png", some "out.png", some 5⟩

/-- The options of `-s in.png -b 5` : the destination is missing. -/
def vmNoDest : VariablesMap := ⟨false, some "in.png", none, some 5⟩

/-- The options of `-h -s in.png` . -/
def vmHelp : VariablesMap := ⟨true, some "in.png", none, none⟩

/-! ## The exits of `main` taken one at a time -/

/-- The run in which initialization fails. -/
theorem main_init_failed (rt : Runtime) (s d : String) (b : Int)
    (hinit : rt.VIPS_INIT "gaussian_libvips" ≠ 0) :
    main rt ⟨false, some s, some d, some b⟩ =
      ⟨0, [Event.printf "Init the VIPS library\n" [], Event.VIPS_INIT "gaussian_libvips",
        Event.printf
          "Error detected; underlying image processing library did not start up properly"
          []]⟩ := by
  simp [main, hinit, boolToInt]

/-- The run in which the load fails. -/
theorem main_load_failed (rt : Runtime) (s d : String) (b : Int)
    (hinit : rt.VIPS_INIT "gaussian_libvips" = 0)
    (hload : rt.vips_image_new_from_file s = 0) :
    main rt ⟨false, some s, some d, some b⟩ =
      ⟨-1, [Event.printf "Init the VIPS library\n" [], Event.VIPS_INIT "gaussian_libvips",
        Event.vips_image_new_from_file s,
        Event.printf "[%d] #### Error detected with vips_image_new_from_file operation" [122],
        Event.printf "vips_shutdown\n" [], Event.vips_shutdown]⟩ := by
  simp [main, hinit, hload, VipsExit.dtor]

/-- The run in which the blur fails. -/
theorem main_blur_failed (rt : Runtime) (s d : String) (b : Int)
    (hinit : rt.VIPS_INIT "gaussian_libvips" = 0)
    (hload : rt.vips_image_new_from_file s ≠ 0)
    (hgauss : (rt.vips_gaussblur (rt.vips_image_new_from_file s) b).1 ≠ 0) :
    main rt ⟨false, some s, some d, some b⟩ =
      ⟨-1, [Event.printf "Init the VIPS library\n" [], Event.VIPS_INIT "gaussian_libvips",
        Event.vips_image_new_from_file s,
        Event.printf "[%d] Tracking image: %p\n" [33, (rt.vips_image_new_from_file s : Int)],
        Event.vips_gaussblur (rt.vips_image_new_from_file s) b,
        Event.printf "Error detected with vips_gaussblur operation\n" [],
        Event.printf "[%d] About to unref image: %p\n"
          [38, (rt.vips_image_new_from_file s : Int)],
        Event.g_object_unref (rt.vips_image_new_from_file s),
        Event.printf "vips_shutdown\n" [], Event.vips_shutdown]⟩ := by
  simp [main, hinit, hload, hgauss, VipsExit.dtor, OnExit.ctor, OnExit.dtor]

/-- The run in which the save fails. -/
theorem main_save_failed (rt : Runtime) (s d : String) (b : Int)
    (hinit : rt.VIPS_INIT "gaussian_libvips" = 0)
    (hload : rt.vips_image_new_from_file s ≠ 0)
    (hgauss : (rt.vips_gaussblur (rt.vips_image_new_from_file s) b).1 = 0)
    (hsave : rt.vips_image_write_to_file
      (rt.vips_gaussblur (rt.vips_image_new_from_file s) b).2 d ≠ 0) :
    main rt ⟨false, some s, some d, some b⟩ =
      ⟨-1, [Event.printf "Init the VIPS library\n" [], Event.VIPS_INIT "gaussian_libvips",
        Event.vips_image_new_from_file s,
        Event.printf "[%d] Tracking image: %p\n" [33, (rt.vips_image_new_from_file s : Int)],
        Event.vips_gaussblur (rt.vips_image_new_from_file s) b,
        Event.vips_image_write_to_file
          (rt.vips_gaussblur (rt.vips_image_new_from_file s) b).2 d,
        Event.printf "[%d] #### Error detected with vips_image_write_to_file operation" [139],
        Event.printf "[%d] About to unref image: %p\n"
          [38, (rt.vips_image_new_from_file s : Int)],
        Event.g_object_unref (rt.vips_image_new_from_file s),
        Event.printf "vips_shutdown\n" [], Event.vips_shutdown]⟩ := by
  simp [main, hinit, hload, hgauss, hsave, VipsExit.dtor, OnExit.ctor, OnExit.dtor]

/-- The run in which every phase succeeds. -/
theorem main_all_succeeded (rt : Runtime) (s d : String) (b : Int)
    (hinit : rt.VIPS_INIT "gaussian_libvips" = 0)
    (hload : rt.vips_image_new_from_file s ≠ 0)
    (hgauss : (rt.vips_gaussblur (rt.vips_image_new_from_file s) b).1 = 0)
    (hsave : rt.vips_image_write_to_file
      (rt.vips_gaussblur (rt.vips_image_new_from_file s) b).2 d = 0) :
    main rt ⟨false, some s, some d, some b⟩ =
      ⟨0, [Event.printf "Init the VIPS library\n" [], Event.VIPS_INIT "gaussian_libvips",
        Event.vips_image_new_from_file s,
        Event.printf "[%d] Tracking image: %p\n" [33, (rt.vips_image_new_from_file s : Int)],
        Event.vips_gaussblur (rt.vips_image_new_from_file s) b,
        Event.vips_image_write_to_file
          (rt.vips_gaussblur (rt.vips_image_new_from_file s) b).2 d,
        Event.printf "App time: %lu\n" [rt.appDuration], Event.printf "All done\n" [],
        Event.printf "[%d] About to unref image: %p\n"
          [38, (rt.vips_image_new_from_file s : Int)],
        Event.g_object_unref (rt.vips_image_new_from_file s),
        Event.printf "vips_shutdown\n" [], Event.vips_shutdown]⟩ := by
  simp [main, hinit, hload, hgauss, hsave, VipsExit.dtor, OnExit.ctor, OnExit.dtor]


/-! ## Shared lemmas -/

/-- A trace accepted by `unrefsPrecedeShutdown` has every unref at a smaller index than
every shutdown. -/
theorem index_lt_of_unrefsPrecedeShutdown :
    ∀ (tr : List Event), unrefsPrecedeShutdown tr = true →
      ∀ (i j : Nat) (h : Nat), tr[i]? = some (Event.g_object_unref h) →
        tr[j]? = some Event.vips_shutdown → i < j := by
  intro tr
  induction tr with
  | nil => intro _ i j h hi; simp at hi
  | cons e es ih =>
    intro hchk i j h hi hj
    have hes : unrefsPrecedeShutdown es = true := by
      cases e <;> simp_all [unrefsPrecedeShutdown]
    cases i with
    | zero =>
      cases j with
      | zero => simp at hi hj; rw [hi] at hj; cases hj
      | succ j => exact Nat.succ_pos j
    | succ i =>
      cases j with
      | zero =>
        exfalso
        simp only [List.getElem?_cons_zero, List.getElem?_cons_succ, Option.some.injEq] at hi hj
        subst hj
        simp only [unrefsPrecedeShutdown, Bool.and_eq_true, List.all_eq_true] at hchk
        have hmem : Event.g_object_unref h ∈ es := List.getElem?_mem hi
        have := hchk.1 _ hmem
        simp at this
      | succ j =>
        simp only [List.getElem?_cons_succ] at hi hj
        exact Nat.succ_lt_succ (ih hes i j h hi hj)

/-- Every run of `main` is accepted by `unrefsPrecedeShutdown`. -/
theorem main_unrefsPrecedeShutdown (rt : Runtime) (vm : VariablesMap) :
    unrefsPrecedeShutdown (main rt vm).trace = true := by
  rcases vm with ⟨help, source, destination, blur⟩
  cases help <;> cases source <;> cases destination <;> cases blur <;>
    simp [main, unrefsPrecedeShutdown]
  split_ifs <;> simp [unrefsPrecedeShutdown, OnExit.ctor, OnExit.dtor, VipsExit.dtor, *]


/-! ## Missing parameters and help -/

/-- C1: when `help` is absent and at least one of `source`, `destination`, `blur` is
absent, `main` returns `-1` (a non-zero status) and makes no call to the image runtime:
no initialize, load, blur, save, release or shutdown. -/
theorem missing_param_exits_without_runtime (rt : Runtime) (vm : VariablesMap)
    (hhelp : vm.help = false)
    (hmiss : vm.source = none ∨ vm.destination = none ∨ vm.blur = none) :
    (main rt vm).status = -1 ∧ (main rt vm).status ≠ 0 ∧
      runtimeCalls (main rt vm).trace = [] := by
  rcases vm with ⟨help, source, destination, blur⟩
  simp only at hhelp hmiss
  subst hhelp
  cases source <;> cases destination <;> cases blur <;>
    simp_all [main, runtimeCalls, Event.isRuntimeCall]

/-- C1 at `-s in.png -b 5` . -/
theorem missing_param_exits_without_runtime_witness :
    vmNoDest.help = false ∧
    (vmNoDest.source = none ∨ vmNoDest.destination = none ∨ vmNoDest.blur = none) ∧
    (main rtOk vmNoDest).status = -1 ∧ (main rtOk vmNoDest).status ≠ 0 ∧
      runtimeCalls (main rtOk vmNoDest).trace = [] :=
  ⟨rfl, Or.inr (Or.inl rfl),
    missing_param_exits_without_runtime rtOk vmNoDest rfl (Or.inr (Or.inl rfl))⟩

/-- C2: when `help` is present, whatever the other options, `main` prints the usage text,
returns exactly `1` and makes no call to the image runtime. -/
theorem help_prints_usage_and_exits_one (rt : Runtime) (vm : VariablesMap)
    (hhelp : vm.help = true) :
    (main rt vm).status = 1 ∧
      (main rt vm).trace = [Event.cout_desc, Event.cout "\n"] ∧
      runtimeCalls (main rt vm).trace = [] := by
  simp [main, hhelp, runtimeCalls, Event.isRuntimeCall]

/-- C2 at `-h -s in.png` . -/
theorem help_prints_usage_and_exits_one_witness :
    vmHelp.help = true ∧ (main rtOk vmHelp).status = 1 ∧
      (main rtOk vmHelp).trace = [Event.cout_desc, Event.cout "\n"] ∧
      runtimeCalls (main rtOk vmHelp).trace = [] :=
  ⟨rfl, help_prints_usage_and_exits_one rtOk vmHelp rfl⟩

/-- C9: when `help` is absent and a required parameter is missing, everything `main`
prints is one diagnostic, naming the first missing parameter in the order source,
destination, blur. -/
theorem missing_param_diagnostic (rt : Runtime) (vm : VariablesMap)
    (hhelp : vm.help = false)
    (hmiss : vm.source = none ∨ vm.destination = none ∨ vm.blur = none) :
    (main rt vm).trace =
      [Event.printf
        (if vm.source = none then "Source path parameter missing\n"
         else if vm.destination = none then "Destination path parameter missing\n"
         else "Blur parameter missing\n") []] := by
  rcases vm with ⟨help, source, destination, blur⟩
  simp only at hhelp hmiss
  subst hhelp
  cases source <;> cases destination <;> cases blur <;> simp_all [main]

/-- C9 at `-s in.png -b 5` : the diagnostic names the destination. -/
theorem missing_param_diagnostic_witness :
    vmNoDest.help = false ∧
    (vmNoDest.source = none ∨ vmNoDest.destination = none ∨ vmNoDest.blur = none) ∧
    (main rtOk vmNoDest).trace =
      [Event.printf "Destination path parameter missing\n" []] :=
  ⟨rfl, Or.inr (Or.inl rfl),
    missing_param_diagnostic rtOk vmNoDest rfl (Or.inr (Or.inl rfl))⟩

/-! ## The successful run -/

/-- C3: with `help` absent, `source`, `destination` and a `blur ≥ 0` present, and
initialization, load, blur and save all succeeding, `main` returns `0` and its phase calls
are exactly: initialize under the name gaussian_libvips, load of the source path, blur of
the handle answered by load with sigma equal to `blur`, save of the handle answered by
blur to the destination path, in this order. -/
theorem success_run_phase_calls (rt : Runtime) (vm : VariablesMap)
    (sourcePath destPath : String) (blur : Int)
    (hhelp : vm.help = false)
    (hsrc : vm.source = some sourcePath)
    (hdst : vm.destination = some destPath)
    (hblur : vm.blur = some blur)
    (_hnonneg : 0 ≤ blur)
    (hinit : rt.VIPS_INIT "gaussian_libvips" = 0)
    (hload : rt.vips_image_new_from_file sourcePath ≠ 0)
    (hgauss : (rt.vips_gaussblur (rt.vips_image_new_from_file sourcePath) blur).1 = 0)
    (hsave : rt.vips_image_write_to_file
      (rt.vips_gaussblur (rt.vips_image_new_from_file sourcePath) blur).2 destPath = 0) :
    (main rt vm).status = 0 ∧
    phaseCalls (main rt vm).trace =
      [Event.VIPS_INIT "gaussian_libvips",
       Event.vips_image_new_from_file sourcePath,
       Event.vips_gaussblur (rt.vips_image_new_from_file sourcePath) blur,
       Event.vips_image_write_to_file
         (rt.vips_gaussblur (rt.vips_image_new_from_file sourcePath) blur).2 destPath] := by
  simp [main, hhelp, hsrc, hdst, hblur, hinit, hload, hgauss, hsave, phaseCalls,
    Event.phase?, OnExit.ctor, OnExit.dtor, VipsExit.dtor, List.filter]

/-- C3 at `-s in.png -d out.png -b 5` with load answering handle `1` and blur handle `2`. -/
theorem success_run_phase_calls_witness :
    (main rtOk vmOk).status = 0 ∧
    phaseCalls (main rtOk vmOk).trace =
      [Event.VIPS_INIT "gaussian_libvips", Event.vips_image_new_from_file "in.png",
       Event.vips_gaussblur 1 5, Event.vips_image_write_to_file 2 "out.png"] :=
  success_run_phase_calls rtOk vmOk "in.png" "out.png" 5 rfl rfl rfl rfl (by decide)
    rfl (by decide) rfl rfl

/-! ## Exit codes -/

/-- C4 (fails on the code): with all options present and a runtime whose initialization
fails, `main` makes the initialization call, the runtime reports failure, and `main`
returns `0`. -/
theorem init_failure_returns_zero :
    (main rtInitFail vmOk).status = 0 ∧
    phaseCalls (main rtInitFail vmOk).trace = [Event.VIPS_INIT "gaussian_libvips"] ∧
    (Event.VIPS_INIT "gaussian_libvips").succeeds rtInitFail = false := by
  decide

/-- C8: the value returned by `main` is the exit code the state machine of the
specification gives to the exit fixed by the parsed options and the answers of the
runtime: help `1`, missing parameter `-1`, initialization failure the `int` value of
`false` (which is `0`), load, blur or save failure `-1`, no failure `0`; and the first
failed phase call read off the trace of the run is that same exit. -/
theorem exit_status_matches_state_machine (rt : Runtime) (vm : VariablesMap) :
    (main rt vm).status = specExit (firstFailure rt vm) ∧
      outcomeOf rt vm (main rt vm).trace = firstFailure rt vm ∧
      specExit Outcome.initFailed = 0 := by
  refine ⟨?_, ?_, by decide⟩
  · rcases vm with ⟨help, source, destination, blur⟩
    cases help <;> cases source <;> cases destination <;> cases blur <;>
      simp [main, firstFailure, specExit]
    split_ifs <;> simp_all [specExit]
  · rcases vm with ⟨help, source, destination, blur⟩
    cases help <;> cases source <;> cases destination <;> cases blur <;>
      simp [main, firstFailure, outcomeOf]
    split_ifs <;>
      simp_all [firstFailedPhase, Event.succeeds, Event.phase?, OnExit.ctor, OnExit.dtor,
        VipsExit.dtor, List.find?]

/-- The value returned by `main` is `0` exactly in the runs without any failure and in
the runs in which initialization fails; every other exit returns a non-zero value. -/
theorem status_eq_zero_iff (rt : Runtime) (vm : VariablesMap) :
    (main rt vm).status = 0 ↔
      firstFailure rt vm = Outcome.success ∨ firstFailure rt vm = Outcome.initFailed := by
  rcases vm with ⟨help, source, destination, blur⟩
  cases help <;> cases source <;> cases destination <;> cases blur <;>
    simp [main, firstFailure]
  split_ifs <;> simp_all [boolToInt]

/-! ## Resource release -/

/-- The handle answered by a successful load is released exactly once, whichever exit
`main` then takes. -/
theorem load_handle_released_once (rt : Runtime) (sourcePath destPath : String) (blur : Int)
    (hinit : rt.VIPS_INIT "gaussian_libvips" = 0)
    (hload : rt.vips_image_new_from_file sourcePath ≠ 0) :
    releaseCount (rt.vips_image_new_from_file sourcePath)
      (main rt ⟨false, some sourcePath, some destPath, some blur⟩).trace = 1 := by
  simp only [main, hinit, hload]
  simp [releaseCount, OnExit.ctor, OnExit.dtor, VipsExit.dtor, hload]
  split_ifs <;> simp [List.count_cons, List.count_nil]

/-- C5 (fails on the code): in the fully successful run where load answers handle `1` and
blur answers the new handle `2`, handle `2` is the one saved, handle `1` is released once
and handle `2` is never released; the same holds when the save then fails. -/
theorem blur_handle_never_released :
    phaseCalls (main rtOk vmOk).trace =
      [Event.VIPS_INIT "gaussian_libvips", Event.vips_image_new_from_file "in.png",
       Event.vips_gaussblur 1 5, Event.vips_image_write_to_file 2 "out.png"] ∧
    releaseCount 1 (main rtOk vmOk).trace = 1 ∧
    releaseCount 2 (main rtOk vmOk).trace = 0 ∧
    (main rtSaveFail vmOk).status = -1 ∧
    releaseCount 1 (main rtSaveFail vmOk).trace = 1 ∧
    releaseCount 2 (main rtSaveFail vmOk).trace = 0 := by
  decide

/-- C6: in every run the number of shutdown calls is `1` if initialization was attempted
and succeeded and `0` otherwise; initialization is attempted and succeeds exactly when
`help` is absent, the three parameters are present and the runtime answers success. -/
theorem shutdown_count_matches_init (rt : Runtime) (vm : VariablesMap) :
    shutdownCount (main rt vm).trace =
      (if initSucceeded rt (main rt vm).trace then 1 else 0) ∧
    (initSucceeded rt (main rt vm).trace = true ↔
      vm.help = false ∧ vm.source.isSome ∧ vm.destination.isSome ∧ vm.blur.isSome ∧
        rt.VIPS_INIT "gaussian_libvips" = 0) := by
  rcases vm with ⟨help, source, destination, blur⟩
  cases help <;> cases source <;> cases destination <;> cases blur <;>
    simp [main, shutdownCount, initSucceeded, Event.phase?, Event.succeeds]
  split_ifs <;>
    simp_all [Event.phase?, Event.succeeds, OnExit.ctor, OnExit.dtor, VipsExit.dtor,
      List.count_cons, List.count_nil]

/-! ## Phase sequencing -/

/-- C7: in every run the phases called form an initial segment of initialize, load, blur,
save; every phase call but the last one reported success; if a call of a phase other than
save fails then save is never called; and if save is called then all four phases were
called in order and the three before it succeeded. -/
theorem phase_calls_sequential (rt : Runtime) (vm : VariablesMap) :
    phasesOf (main rt vm).trace <+: [Phase.init, Phase.load, Phase.blur, Phase.save] ∧
    (∀ e ∈ (phaseCalls (main rt vm).trace).dropLast, e.succeeds rt = true) ∧
    (∀ e ∈ phaseCalls (main rt vm).trace, e.phase? ≠ some Phase.save →
      e.succeeds rt = false → Phase.save ∉ phasesOf (main rt vm).trace) ∧
    (Phase.save ∈ phasesOf (main rt vm).trace →
      phasesOf (main rt vm).trace = [Phase.init, Phase.load, Phase.blur, Phase.save] ∧
      ∀ e ∈ phaseCalls (main rt vm).trace, e.phase? ≠ some Phase.save →
        e.succeeds rt = true) := by
  rcases vm with ⟨help, source, destination, blur⟩
  cases help
  swap
  · simp [main, phasesOf, phaseCalls, Event.phase?]
  cases source with
  | none => simp [main, phasesOf, phaseCalls, Event.phase?]
  | some s =>
  cases destination with
  | none => simp [main, phasesOf, phaseCalls, Event.phase?]
  | some d =>
  cases blur with
  | none => simp [main, phasesOf, phaseCalls, Event.phase?]
  | some b =>
  by_cases hinit : rt.VIPS_INIT "gaussian_libvips" = 0
  swap
  · rw [main_init_failed rt s d b hinit]
    simp [phasesOf, phaseCalls, Event.phase?, Event.succeeds, hinit]
  by_cases hload : rt.vips_image_new_from_file s = 0
  · rw [main_load_failed rt s d b hinit hload]
    simp [phasesOf, phaseCalls, Event.phase?, Event.succeeds, hinit, hload]
  by_cases hgauss : (rt.vips_gaussblur (rt.vips_image_new_from_file s) b).1 = 0
  swap
  · rw [main_blur_failed rt s d b hinit hload hgauss]
    simp [phasesOf, phaseCalls, Event.phase?, Event.succeeds, hinit, hload, hgauss]
  by_cases hsave : rt.vips_image_write_to_file
      (rt.vips_gaussblur (rt.vips_image_new_from_file s) b).2 d = 0
  · rw [main_all_succeeded rt s d b hinit hload hgauss hsave]
    simp [phasesOf, phaseCalls, Event.phase?, Event.succeeds, hinit, hload, hgauss, hsave]
  · rw [main_save_failed rt s d b hinit hload hgauss hsave]
    simp [phasesOf, phaseCalls, Event.phase?, Event.succeeds, hinit, hload, hgauss, hsave]

/-! ## Order of release and shutdown -/

/-- C10: in every run, every release of an image handle stands at a smaller position of
the trace than every shutdown call: no handle is released at or after the shutdown. -/
theorem unref_precedes_shutdown (rt : Runtime) (vm : VariablesMap) (i j h : Nat)
    (hi : (main rt vm).trace[i]? = some (Event.g_object_unref h))
    (hj : (main rt vm).trace[j]? = some Event.vips_shutdown) : i < j :=
  index_lt_of_unrefsPrecedeShutdown _ (main_unrefsPrecedeShutdown rt vm) i j h hi hj

/-- C10 at the fully successful run: the release is event 9 and the shutdown event 11. -/
theorem unref_precedes_shutdown_witness :
    (main rtOk vmOk).trace[9]? = some (Event.g_object_unref 1) ∧
    (main rtOk vmOk).trace[11]? = some Event.vips_shutdown ∧ 9 < 11 :=
  ⟨by decide, by decide, unref_precedes_shutdown rtOk vmOk 9 11 1 (by decide) (by decide)⟩


end GaussianLibvips
